import Mathlib

/-!
Verification of the LINE-bot RAG service (`src/app.py`).

The program is a Flask webhook bound to a LINE messaging channel.  At module
load it runs `init_rag_system()`, which resolves a Google service-account
credentials file, fetches documents from a Google Drive folder, splits them
into chunks, builds a FAISS vector index over Gemini embeddings and constructs
a `RetrievalQA` chain, storing it in the module-level variable `qa_chain`
(`None` when anything prevents this).  Requests to `POST /callback` are
signature-checked and dispatched to `handle_message`, which produces a reply
text (delegating to `qa_chain.run` when ready, falling back to fixed Thai
messages otherwise) and sends it through the LINE reply API.

The embedding below models the external world (filesystem, Google Drive,
embedding service, generation model, LINE reply API, signature check) as an
explicit environment whose fallible calls return `Except`; a raised Python
exception is `Except.error`.  Each modelled function additionally returns the
list of external service `Action`s it performed, so that claims of the form
"never invokes service X" are expressible.
-/

namespace LineBotGemini

/-- A document as returned by `GoogleDriveLoader.load()`: the raw text content
(metadata is irrelevant to every property proved here). -/
structure Document where
  text : String
deriving Repr, DecidableEq

/-- The constructed `RetrievalQA` chain.  `run q` models `qa_chain.run(q)`:
it embeds the query, retrieves, and invokes the generation model, returning
the answer string or raising (`Except.error`). -/
structure Chain where
  run : String → Except String String

/-- Observable external actions performed by the program: a Google Drive fetch
(`loader.load()`), an embedding-service invocation (`FAISS.from_documents`
with `GoogleGenerativeAIEmbeddings`), a generation-model invocation
(`qa_chain.run`), a LINE reply delivery (`line_bot_api.reply_message`), and
entry into the registered chat-event handler `handle_message`. -/
inductive Action where
  | fetch
  | embed
  | generate
  | reply
  | handlerEntry
deriving Repr, DecidableEq

/-- `CREDENTIALS_PATH` (app.py line 21): the fixed deployment path of the
service-account secret file. -/
def CREDENTIALS_PATH : String := "/etc/secrets/credentials.json"

/-- The local development fallback path `"credentials.json"` (app.py line 40). -/
def LOCAL_CREDENTIALS_PATH : String := "credentials.json"

/-- The fixed fallback reply produced when `qa_chain.run` raises
(app.py line 107). -/
def PROCESSING_ERROR_REPLY : String := "ขออภัย เกิดข้อผิดพลาดในการประมวลผลเอกสาร"

/-- The fixed fallback reply produced when `qa_chain` is `None`
(app.py line 110). -/
def NOT_READY_REPLY : String :=
  "ระบบเอกสารยังไม่พร้อมใช้งาน (กำลังโหลด หรือตรวจสอบ Credential/Folder ID)"

/-- Modelled from the spec: the TextChunker component (spec section 4.2).  The
program delegates chunking to `RecursiveCharacterTextSplitter` from the
external langchain library (app.py lines 62-63), whose implementation is not
part of this repository; the spec's contract is: split a text into chunks of
at most `size` characters, consecutive chunks overlapping by the configured
amount, deterministically.  `step = size - overlap` is the distance between
consecutive chunk start offsets; a text of length at most `size` is a single
chunk. -/
def splitFrom (chars : List Char) (size step : Nat) : List (List Char) :=
  if h : chars.length ≤ size ∨ step = 0 then [chars]
  else chars.take size :: splitFrom (chars.drop step) size step
termination_by chars.length
decreasing_by
  push_neg at h
  simp only [List.length_drop]
  omega

/-- Modelled from the spec: chunking a single document text with the given
`chunkSize` and `chunkOverlap` (the program fixes these to 1000 and 200). -/
def splitText (text : String) (chunkSize chunkOverlap : Nat) : List String :=
  (splitFrom text.toList chunkSize (chunkSize - chunkOverlap)).map
    (fun cs => String.mk cs)

/-- Modelled from the spec: `text_splitter.split_documents(docs)` — chunk every
fetched document in order (app.py line 63). -/
def split_documents (docs : List Document) (chunkSize chunkOverlap : Nat) :
    List String :=
  (docs.map (fun d => splitText d.text chunkSize chunkOverlap)).flatten

/-- The external world as seen by `init_rag_system`:
`fsExists` models `os.path.exists` (which returns a boolean and does not
raise); `fetchResult p` models constructing `GoogleDriveLoader` with
service-account key `p` and calling `loader.load()`; `splitOutcome` models any
exception raised by the splitter call; `buildIndexOutcome` models
`FAISS.from_documents` (the embedding-service call) on the produced chunks;
`mkChainOutcome` models `RetrievalQA.from_chain_type`. -/
structure RagEnv where
  fsExists : String → Bool
  fetchResult : String → Except String (List Document)
  splitOutcome : Except String Unit
  buildIndexOutcome : List String → Except String Unit
  mkChainOutcome : Except String Chain

/-- Credentials resolution (app.py lines 35-45): the fixed deployment path is
tried first, then the local fallback; `none` when neither file exists. -/
def chosenAuthPath (env : RagEnv) : Option String :=
  if env.fsExists CREDENTIALS_PATH then some CREDENTIALS_PATH
  else if env.fsExists LOCAL_CREDENTIALS_PATH then some LOCAL_CREDENTIALS_PATH
  else none

/-- The body of the `try` block of `init_rag_system` (app.py lines 48-78):
fetch, early `return` on zero documents (`.ok none`), chunk, build the index,
construct the chain.  `Except.error` is an exception raised inside the block;
the second component lists the external services invoked. -/
def initTryBody (env : RagEnv) (authPath : String) :
    Except String (Option Chain) × List Action :=
  match env.fetchResult authPath with
  | .error e => (.error e, [.fetch])
  | .ok docs =>
    if docs.isEmpty then (.ok none, [.fetch])
    else
      match env.splitOutcome with
      | .error e => (.error e, [.fetch])
      | .ok _ =>
        let splits := split_documents docs 1000 200
        match env.buildIndexOutcome splits with
        | .error e => (.error e, [.fetch, .embed])
        | .ok _ =>
          match env.mkChainOutcome with
          | .error e => (.error e, [.fetch, .embed])
          | .ok chain => (.ok (some chain), [.fetch, .embed])

/-- `init_rag_system` (app.py lines 30-78): when no credentials file exists at
either path the function returns before constructing the loader; otherwise the
`try` body runs and any exception it raises is caught by the
`except Exception` clause, leaving `qa_chain` as `None`.  The result is the
final value of the global `qa_chain` together with the external services
invoked. -/
def init_rag_system (env : RagEnv) : Option Chain × List Action :=
  match chosenAuthPath env with
  | none => (none, [])
  | some p =>
    match initTryBody env p with
    | (.ok c, tr) => (c, tr)
    | (.error _, tr) => (none, tr)

/-- An inbound LINE text-message event: the reply token and the message text. -/
structure ChatEvent where
  replyToken : String
  text : String

/-- The external world as seen by the webhook layer: `sigOk body sig` is the
HMAC signature validation performed inside `handler.handle` (an external
primitive); `parseEvents` is the event parsing applied to a validly signed
body; `replyOutcome tok t` models `line_bot_api.reply_message(tok, t)`, which
raises `LineBotApiError` on delivery failure. -/
structure WebEnv where
  sigOk : String → String → Bool
  parseEvents : String → List ChatEvent
  replyOutcome : String → String → Except String Unit

/-- The reply-text computation of `handle_message` (app.py lines 101-110):
if `qa_chain` is set, invoke it, catching any exception and substituting the
fixed processing-error fallback; otherwise the fixed not-ready fallback,
invoking no external service. -/
def computeReply (qaChain : Option Chain) (userText : String) :
    String × List Action :=
  match qaChain with
  | some chain =>
    match chain.run userText with
    | .ok t => (t, [.generate])
    | .error _ => (PROCESSING_ERROR_REPLY, [.generate])
  | none => (NOT_READY_REPLY, [])

/-- The outcome of one `handle_message` invocation: the value of the global
`qa_chain` afterwards (the handler only reads it), the text passed to
`line_bot_api.reply_message`, the external actions performed, and the
exception propagating out of the handler, if any (only the reply delivery can
raise out of it; `qa_chain.run` exceptions are caught inside). -/
structure HandleOutcome where
  qaAfter : Option Chain
  replyText : String
  calls : List Action
  raised : Option String

/-- `handle_message` (app.py lines 97-115): compute the reply text, then send
it with `line_bot_api.reply_message`; a delivery exception propagates out. -/
def handle_message (env : WebEnv) (qaChain : Option Chain) (event : ChatEvent) :
    HandleOutcome :=
  let r := computeReply qaChain event.text
  match env.replyOutcome event.replyToken r.1 with
  | .ok _ => ⟨qaChain, r.1, .handlerEntry :: r.2 ++ [.reply], none⟩
  | .error e => ⟨qaChain, r.1, .handlerEntry :: r.2 ++ [.reply], some e⟩

/-- The dispatch loop inside `handler.handle`: invoke `handle_message` on each
parsed event in order, stopping at (and propagating) the first exception. -/
def dispatchEvents (env : WebEnv) (qaChain : Option Chain) :
    List ChatEvent → List Action × Option String
  | [] => ([], none)
  | e :: rest =>
    let o := handle_message env qaChain e
    match o.raised with
    | some ex => (o.calls, some ex)
    | none =>
      let r := dispatchEvents env qaChain rest
      (o.calls ++ r.1, r.2)

/-- An HTTP response: status code and body. -/
structure HttpResponse where
  status : Nat
  body : String
deriving Repr, DecidableEq

/-- A `POST /callback` request as the handler sees it: the value of the
`X-Line-Signature` header (`none` when the header is absent) and the raw
body. -/
structure LineRequest where
  signature : Option String
  body : String

/-- The `callback` route (app.py lines 83-91), with Flask semantics for the
unhandled cases: a missing `X-Line-Signature` header makes the
`request.headers` lookup raise `BadRequestKeyError`, which Flask converts to a
400 response without `handler.handle` ever running; `InvalidSignatureError`
from `handler.handle` is caught and answered with `abort(400)`; any other
exception propagating out of `handler.handle` (a reply-delivery failure from
`handle_message`) is unhandled and becomes a 500; otherwise the response is
200 with body "OK". -/
def callback (env : WebEnv) (qaChain : Option Chain) (req : LineRequest) :
    HttpResponse × List Action :=
  match req.signature with
  | none => (⟨400, "Bad Request"⟩, [])
  | some sig =>
    if env.sigOk req.body sig then
      match dispatchEvents env qaChain (env.parseEvents req.body) with
      | (calls, none) => (⟨200, "OK"⟩, calls)
      | (calls, some _) => (⟨500, "Internal Server Error"⟩, calls)
    else (⟨400, "Bad Request"⟩, [])

/-- The `GET /` route (app.py lines 93-95). -/
def home : HttpResponse := ⟨200, "Hello, Line Bot is running!"⟩

/-- Serving a sequence of chat events, threading the global `qa_chain` value
through each `handle_message` invocation, and returning its final value. -/
def serveEvents (env : WebEnv) (qaChain : Option Chain) :
    List ChatEvent → Option Chain
  | [] => qaChain
  | e :: rest => serveEvents env (handle_message env qaChain e).qaAfter rest

/-! ## Helper lemmas -/

/-- A `handle_message` invocation never writes the global `qa_chain`: the
source function has no `global qa_chain` declaration and no assignment to it. -/
theorem handle_message_qaAfter (env : WebEnv) (qaChain : Option Chain)
    (event : ChatEvent) : (handle_message env qaChain event).qaAfter = qaChain := by
  cases h : env.replyOutcome event.replyToken (computeReply qaChain event.text).1 <;>
    simp [handle_message, h]

/-- Serving any sequence of events leaves the global `qa_chain` unchanged. -/
theorem serveEvents_fix (env : WebEnv) (qaChain : Option Chain)
    (evs : List ChatEvent) : serveEvents env qaChain evs = qaChain := by
  induction evs with
  | nil => rfl
  | cons e rest ih =>
    unfold serveEvents
    rw [handle_message_qaAfter]
    exact ih

/-- When no credentials file exists at either path, `init_rag_system` returns
at line 45, before the loader is constructed: no external action happens. -/
theorem init_no_credentials (renv : RagEnv)
    (h1 : renv.fsExists CREDENTIALS_PATH = false)
    (h2 : renv.fsExists LOCAL_CREDENTIALS_PATH = false) :
    init_rag_system renv = (none, []) := by
  simp [init_rag_system, chosenAuthPath, h1, h2]

/-- When the fetch succeeds with zero documents, `init_rag_system` returns at
line 59 with `qa_chain` still `None` and only the fetch performed. -/
theorem init_empty_fetch (renv : RagEnv) (p : String)
    (hpath : chosenAuthPath renv = some p)
    (hfetch : renv.fetchResult p = Except.ok []) :
    init_rag_system renv = (none, [Action.fetch]) := by
  simp [init_rag_system, hpath, initTryBody, hfetch]

/-- With `qa_chain = None`, `handle_message` replies with the fixed not-ready
fallback. -/
theorem handle_none_replyText (wenv : WebEnv) (event : ChatEvent) :
    (handle_message wenv none event).replyText = NOT_READY_REPLY := by
  cases h : wenv.replyOutcome event.replyToken NOT_READY_REPLY <;>
    simp [handle_message, computeReply, h]

/-- With `qa_chain = None`, `handle_message` performs exactly the handler
entry and the reply delivery: no embedding or generation call. -/
theorem handle_none_calls (wenv : WebEnv) (event : ChatEvent) :
    (handle_message wenv none event).calls = [Action.handlerEntry, Action.reply] := by
  cases h : wenv.replyOutcome event.replyToken NOT_READY_REPLY <;>
    simp [handle_message, computeReply, h]

/-! ## Claims -/

/-- Claim C1: any error raised during the startup initialization body
(document fetch, chunking, index build, engine construction) is caught inside
`init_rag_system` and results in the not-ready state (`qa_chain` left as
`None`); no initialization error propagates out.  (The credentials lookup,
`os.path.exists`, returns a boolean and does not raise by its own contract;
every fallible stage sits inside the `try` block.) -/
theorem c1_init_error_caught (env : RagEnv) (p e : String) (tr : List Action)
    (hpath : chosenAuthPath env = some p)
    (herr : initTryBody env p = (Except.error e, tr)) :
    init_rag_system env = (none, tr) := by
  simp [init_rag_system, hpath, herr]

/-- Witness for C1: a concrete environment whose fetch raises. -/
theorem c1_witness :
    init_rag_system
      { fsExists := fun _ => true
        fetchResult := fun _ => Except.error "HttpError 403"
        splitOutcome := Except.ok ()
        buildIndexOutcome := fun _ => Except.ok ()
        mkChainOutcome := Except.error "no key" } = (none, [Action.fetch]) :=
  c1_init_error_caught _ CREDENTIALS_PATH "HttpError 403" [Action.fetch] rfl rfl

/-- Claim C2: for every inbound text chat event, an error raised by the
`qa_chain` invocation is caught inside `handle_message` and converted to the
fixed fallback string, the reply step still receives that usable answer
(`Action.reply` is performed with it), and the handler is not terminated by
the generation failure (nothing propagates unless the reply delivery itself
fails). -/
theorem c2_generation_error_fallback (env : WebEnv) (chain : Chain)
    (event : ChatEvent) (e : String)
    (hgen : chain.run event.text = Except.error e) :
    (handle_message env (some chain) event).replyText = PROCESSING_ERROR_REPLY ∧
    Action.reply ∈ (handle_message env (some chain) event).calls ∧
    (env.replyOutcome event.replyToken PROCESSING_ERROR_REPLY = Except.ok () →
      (handle_message env (some chain) event).raised = none) := by
  simp only [handle_message, computeReply, hgen]
  cases h : env.replyOutcome event.replyToken PROCESSING_ERROR_REPLY <;>
    simp [h]

/-- Witness for C2: a concrete chain whose generation call raises, with a
delivery that succeeds. -/
theorem c2_witness :
    (handle_message
      { sigOk := fun _ _ => true
        parseEvents := fun _ => []
        replyOutcome := fun _ _ => Except.ok () }
      (some { run := fun _ => Except.error "GenerationServiceError" })
      { replyToken := "tok", text := "q" }).replyText = PROCESSING_ERROR_REPLY :=
  (c2_generation_error_fallback _ _ _ "GenerationServiceError" rfl).1

/-- A concrete web environment for the C3 counterexample: the signature check
accepts, one text event is parsed, and the LINE reply API raises
(`LineBotApiError`, e.g. an expired reply token). -/
def c3Env : WebEnv :=
  { sigOk := fun _ _ => true
    parseEvents := fun _ => [{ replyToken := "tok", text := "hi" }]
    replyOutcome := fun _ _ => Except.error "LineBotApiError" }

/-- A concrete request carrying a signature header for the C3 counterexample. -/
def c3Req : LineRequest := { signature := some "sig", body := "payload" }

/-- Counterexample to claim C3 as stated: a request whose signature validation
succeeds, but whose reply delivery raises, ends in a 500 response — so
signature failure is not the only category of request-time failure producing a
non-200 response, and a downstream (reply-delivery) error does not degrade to
a 200. -/
theorem c3_counterexample :
    c3Req.signature = some "sig" ∧
    c3Env.sigOk c3Req.body "sig" = true ∧
    (callback c3Env none c3Req).1.status = 500 ∧
    (callback c3Env none c3Req).1.status ≠ 200 := by
  refine ⟨rfl, rfl, rfl, ?_⟩
  decide

/-- Claim C3 (amended): if the `X-Line-Signature` header is absent or
signature validation fails, the response is 400 Bad Request and no handler
runs; if signature validation succeeds and no dispatched handler raises, the
response is 200 OK with body "OK", even when the business answer was a
fallback message; and the only other request-time outcome is a 500 caused by
an exception propagating out of a handler (which, by `handle_message`, can
only be a reply-delivery failure — answer-generation errors are already
absorbed into a fallback). -/
theorem c3_response_policy (env : WebEnv) (qaChain : Option Chain)
    (req : LineRequest) :
    (req.signature = none → callback env qaChain req = (⟨400, "Bad Request"⟩, [])) ∧
    (∀ sig, req.signature = some sig → env.sigOk req.body sig = false →
      callback env qaChain req = (⟨400, "Bad Request"⟩, [])) ∧
    (∀ sig, req.signature = some sig → env.sigOk req.body sig = true →
      (dispatchEvents env qaChain (env.parseEvents req.body)).2 = none →
      (callback env qaChain req).1 = ⟨200, "OK"⟩) ∧
    (∀ sig ex, req.signature = some sig → env.sigOk req.body sig = true →
      (dispatchEvents env qaChain (env.parseEvents req.body)).2 = some ex →
      (callback env qaChain req).1.status = 500) := by
  refine ⟨?_, ?_, ?_, ?_⟩
  · intro h
    simp [callback, h]
  · intro sig hsig hbad
    simp [callback, hsig, hbad]
  · intro sig hsig hok hnone
    simp only [callback, hsig, hok, if_true]
    rcases hd : dispatchEvents env qaChain (env.parseEvents req.body) with ⟨calls, r⟩
    rw [hd] at hnone
    simp at hnone
    subst hnone
    rfl
  · intro sig ex hsig hok hsome
    simp only [callback, hsig, hok, if_true]
    rcases hd : dispatchEvents env qaChain (env.parseEvents req.body) with ⟨calls, r⟩
    rw [hd] at hsome
    simp at hsome
    subst hsome
    rfl

/-- Witness for the amended C3: with the same accepting environment but a
reply delivery that succeeds, the concrete response is 200 "OK" even though
the answer was the not-ready fallback (`qaChain = none`). -/
theorem c3_witness :
    (callback
      { sigOk := fun _ _ => true
        parseEvents := fun _ => [{ replyToken := "tok", text := "hi" }]
        replyOutcome := fun _ _ => Except.ok () }
      none { signature := some "sig", body := "payload" }).1 = ⟨200, "OK"⟩ :=
  (c3_response_policy _ none _).2.2.1 "sig" rfl rfl rfl

/-- Claim C4: if the document fetch returns an empty sequence, initialization
ends not-ready (`qa_chain` stays `None`, only the fetch was performed), and
thereafter every query is answered with the configured not-ready fallback
without invoking the embedding or generation services. -/
theorem c4_empty_fetch_not_ready (renv : RagEnv) (p : String)
    (hpath : chosenAuthPath renv = some p)
    (hfetch : renv.fetchResult p = Except.ok []) :
    init_rag_system renv = (none, [Action.fetch]) ∧
    ∀ (wenv : WebEnv) (event : ChatEvent),
      (handle_message wenv (init_rag_system renv).1 event).replyText =
        NOT_READY_REPLY ∧
      Action.embed ∉ (handle_message wenv (init_rag_system renv).1 event).calls ∧
      Action.generate ∉ (handle_message wenv (init_rag_system renv).1 event).calls := by
  have hinit := init_empty_fetch renv p hpath hfetch
  refine ⟨hinit, ?_⟩
  intro wenv event
  simp only [hinit]
  refine ⟨handle_none_replyText wenv event, ?_, ?_⟩ <;>
    rw [handle_none_calls] <;> decide

/-- A concrete initialization environment whose fetch returns zero documents,
for the C4 witness. -/
def c4Env : RagEnv :=
  { fsExists := fun _ => true
    fetchResult := fun _ => Except.ok []
    splitOutcome := Except.ok ()
    buildIndexOutcome := fun _ => Except.ok ()
    mkChainOutcome := Except.error "unused" }

/-- Witness for C4: a concrete environment whose fetch returns zero
documents. -/
theorem c4_witness : init_rag_system c4Env = (none, [Action.fetch]) :=
  (c4_empty_fetch_not_ready c4Env CREDENTIALS_PATH rfl rfl).1

/-- Claim C5: if no credentials file exists at either the fixed deployment
path or the local fallback path, initialization returns not-ready without
constructing the loader — no external action at all, in particular no network
fetch, is attempted. -/
theorem c5_no_credentials_no_fetch (renv : RagEnv)
    (h1 : renv.fsExists CREDENTIALS_PATH = false)
    (h2 : renv.fsExists LOCAL_CREDENTIALS_PATH = false) :
    init_rag_system renv = (none, []) :=
  init_no_credentials renv h1 h2

/-- Witness for C5: a concrete environment with no credentials file anywhere
(its fetch would raise if it were ever attempted). -/
theorem c5_witness :
    init_rag_system
      { fsExists := fun _ => false
        fetchResult := fun _ => Except.error "never reached"
        splitOutcome := Except.ok ()
        buildIndexOutcome := fun _ => Except.ok ()
        mkChainOutcome := Except.error "never reached" } = (none, []) :=
  c5_no_credentials_no_fetch _ rfl rfl

/-- Claim C6: the process-wide `qa_chain` is determined once by the single
startup `init_rag_system()` pass (the module-level call at line 81, before
requests are served), and no request handler writes to it afterwards: serving
any sequence of chat events leaves the value produced at startup unchanged. -/
theorem c6_qa_chain_single_assignment (renv : RagEnv) (wenv : WebEnv)
    (evs : List ChatEvent) :
    serveEvents wenv (init_rag_system renv).1 evs = (init_rag_system renv).1 :=
  serveEvents_fix wenv (init_rag_system renv).1 evs

/-- Claim C7 (spec-modelled chunker): for every document whose text has length
at most the configured `max_chunk_size` of 1000, splitting yields exactly one
chunk whose text equals the document's text. -/
theorem c7_short_document_single_chunk (d : Document)
    (h : d.text.length ≤ 1000) :
    splitText d.text 1000 200 = [d.text] := by
  have hlen : d.text.toList.length ≤ 1000 := h
  unfold splitText
  rw [splitFrom]
  rw [dif_pos (Or.inl hlen)]
  simp

/-- Witness for C7: a concrete short document. -/
theorem c7_witness :
    splitText (Document.text { text := "The capital of Thailand is Bangkok." })
      1000 200 = ["The capital of Thailand is Bangkok."] :=
  c7_short_document_single_chunk { text := "The capital of Thailand is Bangkok." }
    (by decide)

/-- Claim C8 (spec-modelled chunker): with `overlap < max_chunk_size`, the
chunker is a deterministic function of its inputs — two runs on identical
input produce identical chunk boundaries. -/
theorem c8_chunker_deterministic (t1 t2 : String) (size overlap : Nat)
    (hov : overlap < size) (heq : t1 = t2) :
    splitText t1 size overlap = splitText t2 size overlap := by
  rw [heq]

/-- Witness for C8: a concrete run on the configured parameters. -/
theorem c8_witness :
    (200 : Nat) < 1000 ∧
      splitText "hello" 1000 200 = splitText "hello" 1000 200 :=
  ⟨by decide, c8_chunker_deterministic "hello" "hello" 1000 200 (by decide) rfl⟩

/-- Claim C9: a `POST /callback` request with no `X-Line-Signature` header is
rejected with a 400 client error raised by the header lookup, and the
chat-event handler is never invoked (no external action at all happens). -/
theorem c9_missing_header_rejected (wenv : WebEnv) (qaChain : Option Chain)
    (req : LineRequest) (h : req.signature = none) :
    (callback wenv qaChain req).1.status = 400 ∧
    (callback wenv qaChain req).2 = [] ∧
    Action.handlerEntry ∉ (callback wenv qaChain req).2 := by
  simp [callback, h]

/-- Witness for C9: a concrete headerless request against an environment whose
handler would visibly run (its reply call raises) if it were ever invoked. -/
theorem c9_witness :
    (callback
      { sigOk := fun _ _ => true
        parseEvents := fun _ => [{ replyToken := "tok", text := "hi" }]
        replyOutcome := fun _ _ => Except.error "never reached" }
      none { signature := none, body := "payload" }).1.status = 400 :=
  (c9_missing_header_rejected _ none { signature := none, body := "payload" } rfl).1

/-- Claim C10: the two degraded initialization outcomes — credentials file
absent, and fetch returning zero documents — leave identical program state
(`qa_chain = None` in both), so every subsequent query receives the same
single fallback reply in both cases: the failure reason does not influence the
user-visible answer. -/
theorem c10_degraded_states_indistinguishable (env1 env2 : RagEnv) (p : String)
    (h1a : env1.fsExists CREDENTIALS_PATH = false)
    (h1b : env1.fsExists LOCAL_CREDENTIALS_PATH = false)
    (h2p : chosenAuthPath env2 = some p)
    (h2f : env2.fetchResult p = Except.ok []) :
    (init_rag_system env1).1 = (init_rag_system env2).1 ∧
    (init_rag_system env1).1 = none ∧
    ∀ (wenv : WebEnv) (event : ChatEvent),
      (handle_message wenv (init_rag_system env1).1 event).replyText =
        (handle_message wenv (init_rag_system env2).1 event).replyText ∧
      (handle_message wenv (init_rag_system env1).1 event).replyText =
        NOT_READY_REPLY := by
  have h1 := init_no_credentials env1 h1a h1b
  have h2 := init_empty_fetch env2 p h2p h2f
  simp [h1, h2, handle_none_replyText]

/-- A concrete environment with no credentials file, for the C10 witness. -/
def c10EnvNoCreds : RagEnv :=
  { fsExists := fun _ => false
    fetchResult := fun _ => Except.error "never reached"
    splitOutcome := Except.ok ()
    buildIndexOutcome := fun _ => Except.ok ()
    mkChainOutcome := Except.error "never reached" }

/-- A concrete environment whose fetch returns zero documents, for the C10
witness. -/
def c10EnvEmptyDrive : RagEnv :=
  { fsExists := fun _ => true
    fetchResult := fun _ => Except.ok []
    splitOutcome := Except.ok ()
    buildIndexOutcome := fun _ => Except.ok ()
    mkChainOutcome := Except.error "unused" }

/-- Witness for C10: the two concrete degraded environments produce the same
not-ready state. -/
theorem c10_witness :
    (init_rag_system c10EnvNoCreds).1 = (init_rag_system c10EnvEmptyDrive).1 :=
  (c10_degraded_states_indistinguishable c10EnvNoCreds c10EnvEmptyDrive
    CREDENTIALS_PATH rfl rfl rfl rfl).1

end LineBotGemini
